import Mathlib

/-!
Verification of `generate_schema.py`: a generator that reads SQLite table
metadata and emits a Diesel schema document.  The Python source is embedded
shallowly: pure string manipulation becomes Lean functions on `String` /
`List Char`, the SQLite metadata rows become structures, and the imperative
accumulation loops become folds.
-/

namespace CLIERP

/-- Python's substring test `needle in hay`, over lists of characters:
true iff `needle` occurs contiguously inside `hay` (the empty needle is
contained in everything, as in Python). -/
def containsSub (needle : List Char) : List Char → Bool
  | [] => needle.isEmpty
  | c :: rest => needle.isPrefixOf (c :: rest) || containsSub needle rest

/-- Python's `str.upper()` on the ASCII domain of SQL type names: uppercase
each character.  `Char.toUpper` raises exactly the basic latin letters,
matching CPython's per-character behaviour on ASCII input. -/
def pyUpper (l : List Char) : List Char := l.map Char.toUpper

/-- `str.upper()` at the `String` level. -/
def pyUpperStr (s : String) : String := ⟨pyUpper s.data⟩

/-- The `type_mapping` dict of `sql_type_to_diesel_type` together with the
defaulting lookup `type_mapping.get(sql_type, 'Text')` (lines 10-22 and 38
of `generate_schema.py`). -/
def type_mapping_get (s : List Char) : String :=
  if s = "INTEGER".data then "Integer"
  else if s = "TEXT".data then "Text"
  else if s = "REAL".data then "Float"
  else if s = "FLOAT".data then "Float"
  else if s = "BOOLEAN".data then "Bool"
  else if s = "BOOL".data then "Bool"
  else if s = "DATE".data then "Date"
  else if s = "TIME".data then "Time"
  else if s = "DATETIME".data then "Timestamp"
  else if s = "TIMESTAMP".data then "Timestamp"
  else if s = "BLOB".data then "Binary"
  else "Text"

/-- The substring-rule cascade of `sql_type_to_diesel_type` (lines 26-38),
applied to the already upper-cased type string: the value bound to
`diesel_type` in the Python source. -/
def diesel_base (up : List Char) : String :=
  if containsSub "INT".data up then "Integer"
  else if containsSub "CHAR".data up || containsSub "TEXT".data up then "Text"
  else if containsSub "REAL".data up || containsSub "FLOAT".data up
       || containsSub "DOUBLE".data up then "Float"
  else if containsSub "DATE".data up then
    (if containsSub "TIME".data up then "Timestamp" else "Date")
  else type_mapping_get up

/-- `sql_type_to_diesel_type(sql_type, is_nullable)` (lines 8-42): uppercase
the raw type, run the substring cascade with dict fallback, and wrap in
`Nullable<...>` when the nullability flag is set. -/
def sql_type_to_diesel_type (sql_type : String) (is_nullable : Bool) : String :=
  let d := diesel_base (pyUpper sql_type.data)
  if is_nullable then "Nullable<" ++ d ++ ">" else d

example : sql_type_to_diesel_type "INT" false = "Integer" := by decide
example : sql_type_to_diesel_type "VARCHAR(50)" false = "Text" := by decide
example : sql_type_to_diesel_type "boolean" false = "Bool" := by decide
example : sql_type_to_diesel_type "TEXT" true = "Nullable<Text>" := by decide
example : sql_type_to_diesel_type "DATETIME" false = "Timestamp" := by decide
example : sql_type_to_diesel_type "TIMESTAMP" false = "Timestamp" := by decide
example : sql_type_to_diesel_type "FOOBAR" false = "Text" := by decide

/-- One row of `PRAGMA table_info`, the 6-tuple
`(cid, name, type, notnull, dflt_value, pk)` destructured on line 79.
`notnull` and `pk` are the integers SQLite reports; the Python code uses
them with integer truthiness (`not not_null`, `not is_pk`, `if col[5]:`),
so zero means the flag is unset. -/
structure Column where
  cid : Nat
  name : String
  ctype : String
  notnull : Nat
  dflt : Option String
  pk : Nat
deriving DecidableEq

/-- One row of `PRAGMA foreign_key_list`, keeping the fields the script
destructures and uses on lines 90-92: the referenced table (`table`), the
local column (`from`) and the referenced column (`to`); the unused trailing
fields (`on_update`, `on_delete`, `match`) are omitted along with the unused
leading ids. -/
structure ForeignKey where
  referencedTable : String
  fromCol : String
  toCol : String
deriving DecidableEq

/-- One user table as the metadata reader delivers it: its name together
with its `table_info` rows (in ordinal order, as SQLite reports them) and
its `foreign_key_list` rows (in discovery order). -/
structure Table where
  name : String
  columns : List Column
  foreignKeys : List ForeignKey
deriving DecidableEq

/-- The primary-key scan of lines 66-70: the first column (in ordinal
order) whose `pk` field is truthy, or `none`. -/
def find_primary_key : List Column → Option String
  | [] => none
  | c :: rest => if c.pk != 0 then some c.name else find_primary_key rest

/-- Lines 66-73 in full.  Python's `if not primary_key:` treats both `None`
(no flagged column) and the empty string (a flagged column named `""`) as
falsy, so both fall back to `'id'`. -/
def primary_key_ident (cols : List Column) : String :=
  match find_primary_key cols with
  | none => "id"
  | some s => if s = "" then "id" else s

/-- One column binding line (lines 79-82): the nullability passed to the
type mapper is `not not_null and not is_pk` under integer truthiness. -/
def column_line (c : Column) : String :=
  "        " ++ c.name ++ " -> "
    ++ sql_type_to_diesel_type c.ctype ((c.notnull == 0) && (c.pk == 0)) ++ ","

/-- The lines appended to `schema_lines` for one table (lines 75-86):
opening lines, one line per column in ordinal order, closing lines, and the
blank separator. -/
def table_block (t : Table) : List String :=
  ["diesel::table! \x7b",
   "    " ++ t.name ++ " (" ++ primary_key_ident t.columns ++ ") \x7b"]
  ++ t.columns.map column_line
  ++ ["    \x7d", "\x7d", ""]

/-- One `joinable!` statement (line 92). -/
def joinable_line (tableName : String) (fk : ForeignKey) : String :=
  "diesel::joinable!(" ++ tableName ++ " -> " ++ fk.referencedTable
    ++ " (" ++ fk.fromCol ++ "));"

/-- The foreign-key loop of lines 89-92: append one `joinable!` line per
foreign key whose referenced table differs from the owning table. -/
def fk_joinables (tableName : String) (fks : List ForeignKey)
    (acc : List String) : List String :=
  fks.foldl
    (fun jl fk =>
      if fk.referencedTable != tableName then jl ++ [joinable_line tableName fk]
      else jl)
    acc

/-- The initial `schema_lines` (line 53). -/
def header_lines : List String :=
  ["// @generated automatically by generate_schema.py", ""]

/-- The main table loop (lines 56-92), threading the two accumulator lists
`schema_lines` and `joinable_lines`. -/
def process_tables (tables : List Table) : List String × List String :=
  tables.foldl
    (fun acc t => (acc.1 ++ table_block t, fk_joinables t.name t.foreignKeys acc.2))
    (header_lines, [])

/-- The trailing `allow_tables_to_appear_in_same_query!` block
(lines 100-104). -/
def allow_lines (tableNames : List String) : List String :=
  ["diesel::allow_tables_to_appear_in_same_query!("]
  ++ tableNames.map (fun n => "    " ++ n ++ ",")
  ++ [");"]

/-- The table list the catalog query of line 50 delivers: user tables other
than `sqlite_sequence`, ordered by name (SQLite's `ORDER BY name` compares
UTF-8 bytes, which agrees with `String`'s lexicographic order). -/
def sorted_tables (db : List Table) : List Table :=
  (db.filter (fun t => t.name != "sqlite_sequence")).mergeSort
    (fun a b => decide (a.name ≤ b.name))

/-- `generate_schema` (lines 44-107) as a function of the metadata
snapshot: emit the header, each table block in sorted order, the collected
`joinable!` lines followed by a blank line when any exist, and the final
`allow_tables_to_appear_in_same_query!` block, joined by newlines. -/
def generate_schema (db : List Table) : String :=
  let tables := sorted_tables db
  let p := process_tables tables
  let schema_lines := if p.2.isEmpty then p.1 else p.1 ++ p.2 ++ [""]
  String.intercalate "\n" (schema_lines ++ allow_lines (tables.map Table.name))

/-- The observable outcome of one process run: exit status and the texts
written to the two standard streams. -/
structure ProcResult where
  exitStatus : Nat
  outText : String
  errText : String
deriving DecidableEq

/-- The `__main__` block (lines 109-116) as a function of the argument
vector (including the program name, as `sys.argv` does) and of the metadata
snapshot the database path denotes.  Python's `print` writes to standard
output and appends a newline; nothing is ever written to standard error. -/
def main_model (argv : List String) (db : List Table) : ProcResult :=
  if argv.length ≠ 2 then
    ⟨1, "Usage: python generate_schema.py <database_path>\n", ""⟩
  else
    ⟨0, generate_schema db ++ "\n", ""⟩

/-- The exact-match fallback table exactly as the specification words it:
`{TEXT→Text, REAL→Float, FLOAT→Float, BOOLEAN→Bool, BOOL→Bool, DATE→Date,
TIME→Time, DATETIME→Timestamp, TIMESTAMP→Timestamp, BLOB→Binary}` with
default `Text` — written from the spec, to be compared with the source's
`type_mapping_get` (which carries an additional `INTEGER` entry). -/
def spec_lookup (s : List Char) : String :=
  if s = "TEXT".data then "Text"
  else if s = "REAL".data then "Float"
  else if s = "FLOAT".data then "Float"
  else if s = "BOOLEAN".data then "Bool"
  else if s = "BOOL".data then "Bool"
  else if s = "DATE".data then "Date"
  else if s = "TIME".data then "Time"
  else if s = "DATETIME".data then "Timestamp"
  else if s = "TIMESTAMP".data then "Timestamp"
  else if s = "BLOB".data then "Binary"
  else "Text"

/-- The priority-ordered rule cascade exactly as the specification words
it, over the case-normalised type string. -/
def normalize_spec_base (up : List Char) : String :=
  if containsSub "INT".data up then "Integer"
  else if containsSub "CHAR".data up || containsSub "TEXT".data up then "Text"
  else if containsSub "REAL".data up || containsSub "FLOAT".data up
       || containsSub "DOUBLE".data up then "Float"
  else if containsSub "DATE".data up then
    (if containsSub "TIME".data up then "Timestamp" else "Date")
  else spec_lookup up

/-- The specification's `normalize(rawType, nullable)`: case-insensitive
substring rules in fixed priority order, then the spec's exact-match table
with default `Text`, wrapped as `Nullable<...>` iff `nullable`. -/
def normalize_spec (rawType : String) (nullable : Bool) : String :=
  let d := normalize_spec_base (pyUpper rawType.data)
  if nullable then "Nullable<" ++ d ++ ">" else d

/-- The two fallback tables agree whenever the string does not contain
`INT`: the source's extra `INTEGER` entry is unreachable because any string
equal to `INTEGER` contains `INT` and is caught by the first rule. -/
theorem type_mapping_get_eq_spec_lookup (up : List Char)
    (h : containsSub "INT".data up = false) :
    type_mapping_get up = spec_lookup up := by
  unfold type_mapping_get spec_lookup
  by_cases h1 : up = "INTEGER".data
  · subst h1
    exact absurd h (by decide)
  · rw [if_neg h1]

/-- The rule cascades agree on every input. -/
theorem diesel_base_eq_spec_base (up : List Char) :
    diesel_base up = normalize_spec_base up := by
  unfold diesel_base normalize_spec_base
  cases h1 : containsSub "INT".data up with
  | true => simp [h1]
  | false => simp [h1, type_mapping_get_eq_spec_lookup up h1]

/-- Packing a valid codepoint and unpacking it is the identity. -/
theorem toNat_ofNat_valid (m : Nat) (h : m.isValidChar) :
    (Char.ofNat m).toNat = m := by
  unfold Char.ofNat
  rw [dif_pos h]
  rfl

/-- A character outside the lowercase latin range is fixed by `toUpper`. -/
theorem toUpper_eq_of_not (c : Char) (h : ¬(c.toNat ≥ 97 ∧ c.toNat ≤ 122)) :
    c.toUpper = c := by
  simp only [Char.toUpper]
  rw [if_neg h]

/-- The codepoint of `toUpper`: lowercase latin letters drop by 32,
everything else is unchanged. -/
theorem toNat_toUpper (c : Char) :
    c.toUpper.toNat
      = if c.toNat ≥ 97 ∧ c.toNat ≤ 122 then c.toNat - 32 else c.toNat := by
  simp only [Char.toUpper]
  split
  next h => exact toNat_ofNat_valid _ (Or.inl (by omega))
  next h => rfl

/-- Uppercasing a character is idempotent. -/
theorem toUpper_idem (c : Char) : c.toUpper.toUpper = c.toUpper := by
  by_cases h : c.toNat ≥ 97 ∧ c.toNat ≤ 122
  · apply toUpper_eq_of_not
    rw [toNat_toUpper, if_pos h]
    omega
  · have hc := toUpper_eq_of_not c h
    rw [hc]
    exact hc

/-- Uppercasing a string is idempotent. -/
theorem pyUpper_idem (l : List Char) : pyUpper (pyUpper l) = pyUpper l := by
  unfold pyUpper
  rw [List.map_map]
  exact List.map_congr_left (fun c _ => toUpper_idem c)

/-- Declarative reading of the foreign-key loop for one table: one
`joinable!` line per foreign key whose referenced table differs from the
owning table, in discovery order. -/
def joinables_of (t : Table) : List String :=
  (t.foreignKeys.filter (fun fk => fk.referencedTable != t.name)).map
    (joinable_line t.name)

/-- The foreign-key fold appends exactly the filtered, mapped lines. -/
theorem fk_joinables_eq (tn : String) (fks : List ForeignKey)
    (acc : List String) :
    fk_joinables tn fks acc
      = acc ++ (fks.filter (fun fk => fk.referencedTable != tn)).map
          (joinable_line tn) := by
  induction fks generalizing acc with
  | nil => simp [fk_joinables]
  | cons fk rest ih =>
    rw [show fk_joinables tn (fk :: rest) acc
          = fk_joinables tn rest
              (if (fk.referencedTable != tn) = true
               then acc ++ [joinable_line tn fk] else acc) from rfl]
    cases h : (fk.referencedTable != tn) with
    | true => simp [h, ih, List.filter_cons, List.append_assoc]
    | false => simp [h, ih, List.filter_cons]

/-- The main table fold, from an arbitrary pair of accumulators. -/
theorem process_tables_go (ts : List Table) (a b : List String) :
    ts.foldl
        (fun acc t =>
          (acc.1 ++ table_block t, fk_joinables t.name t.foreignKeys acc.2))
        (a, b)
      = (a ++ ts.flatMap table_block, b ++ ts.flatMap joinables_of) := by
  induction ts generalizing a b with
  | nil => simp
  | cons t rest ih =>
    rw [List.foldl_cons, ih]
    simp [fk_joinables_eq, joinables_of, List.append_assoc]

/-- The table loop produces the header followed by the concatenated table
blocks, and separately the concatenated `joinable!` lines, table order
outer and foreign-key discovery order inner. -/
theorem process_tables_eq (ts : List Table) :
    process_tables ts
      = (header_lines ++ ts.flatMap table_block, ts.flatMap joinables_of) := by
  unfold process_tables
  rw [process_tables_go]
  simp

/-- Structure of the whole document: header, table blocks in catalog order,
the `joinable!` lines followed by one blank line when any exist, then the
`allow_tables_to_appear_in_same_query!` block. -/
theorem generate_schema_eq (db : List Table) :
    generate_schema db
      = String.intercalate "\n"
          (header_lines ++ (sorted_tables db).flatMap table_block
           ++ (if ((sorted_tables db).flatMap joinables_of).isEmpty then []
               else (sorted_tables db).flatMap joinables_of ++ [""])
           ++ allow_lines ((sorted_tables db).map Table.name)) := by
  simp only [generate_schema, process_tables_eq]
  cases h : ((sorted_tables db).flatMap joinables_of).isEmpty with
  | true =>
    have hnil : (sorted_tables db).flatMap joinables_of = [] :=
      List.isEmpty_iff.mp h
    simp [hnil]
  | false => simp [h, List.append_assoc]

/-- The emitted table sequence is sorted by name. -/
theorem sorted_tables_pairwise_le (db : List Table) :
    ((sorted_tables db).map Table.name).Pairwise (· ≤ ·) := by
  have h := @List.sorted_mergeSort Table
      (fun a b => decide (a.name ≤ b.name))
      (fun a b c hab hbc => by
        simp only [decide_eq_true_eq] at *
        exact le_trans hab hbc)
      (fun a b => by
        simp only [Bool.or_eq_true, decide_eq_true_eq]
        exact le_total a.name b.name)
      (db.filter (fun t => t.name != "sqlite_sequence"))
  rw [List.pairwise_map]
  unfold sorted_tables
  exact h.imp (fun hab => of_decide_eq_true hab)

/-- The emitted table sequence is a permutation of the filtered input. -/
theorem sorted_tables_perm (db : List Table) :
    (sorted_tables db).Perm (db.filter (fun t => t.name != "sqlite_sequence")) :=
  List.mergeSort_perm _ _

/-- The fixed closed vocabulary of abstract column types. -/
def vocab : List String :=
  ["Integer", "Text", "Float", "Bool", "Date", "Time", "Timestamp", "Binary"]

set_option maxHeartbeats 2000000 in
/-- The fallback lookup only produces vocabulary values. -/
theorem type_mapping_get_mem (up : List Char) : type_mapping_get up ∈ vocab := by
  unfold type_mapping_get
  repeat' split
  all_goals decide

set_option maxHeartbeats 1000000 in
/-- The rule cascade only produces vocabulary values. -/
theorem diesel_base_mem (up : List Char) : diesel_base up ∈ vocab := by
  unfold diesel_base
  repeat' split
  all_goals first | decide | exact type_mapping_get_mem up

/-- Claim C1: `normalize(s, nullable)` follows the case-insensitive
substring rules in fixed priority order (INT; CHAR/TEXT; REAL/FLOAT/DOUBLE;
DATE with TIME refinement), falls back to the spec's fixed exact-match
table with default Text, and wraps the result as `Nullable<...>` iff the
nullable flag is set: the source function agrees with the function written
from the spec's words on every input.  (The source's lookup table carries
an extra `INTEGER` entry absent from the spec table, but that entry is
unreachable because `INTEGER` contains `INT`.) -/
theorem claim_C1_normalize_refines_spec :
    ∀ (s : String) (n : Bool), sql_type_to_diesel_type s n = normalize_spec s n := by
  intro s n
  simp only [sql_type_to_diesel_type, normalize_spec, diesel_base_eq_spec_base]

/-- Claim C2: the nullability handed to the type mapper is
`not not-null and not primary-key`: a primary-key column renders without
the `Nullable` wrapper regardless of its not-null flag, and a column with
both flags clear renders wrapped as `Nullable<...>` of its base type. -/
theorem claim_C2_nullability (c : Column) :
    (c.pk ≠ 0 →
      column_line c
        = "        " ++ c.name ++ " -> " ++ diesel_base (pyUpper c.ctype.data) ++ ",")
    ∧ (c.notnull = 0 → c.pk = 0 →
      column_line c
        = "        " ++ c.name ++ " -> "
            ++ ("Nullable<" ++ diesel_base (pyUpper c.ctype.data) ++ ">") ++ ",") := by
  constructor
  · intro h
    have hpk : (c.pk == 0) = false := by simp [h]
    simp only [column_line, sql_type_to_diesel_type, hpk, Bool.and_false,
      Bool.false_eq_true, if_false]
  · intro h1 h2
    simp only [column_line, sql_type_to_diesel_type, h1, h2, beq_self_eq_true,
      Bool.and_self, if_true]

/-- Witness for C2: a primary-key integer column renders bare, and a
doubly-unflagged text column renders Nullable-wrapped. -/
theorem claim_C2_nullability_witness :
    column_line ⟨0, "id", "INTEGER", 0, none, 1⟩ = "        id -> Integer," ∧
    column_line ⟨1, "name", "TEXT", 0, none, 0⟩ = "        name -> Nullable<Text>," := by
  constructor
  · exact ((claim_C2_nullability ⟨0, "id", "INTEGER", 0, none, 1⟩).1
      (by decide)).trans (by decide)
  · exact ((claim_C2_nullability ⟨1, "name", "TEXT", 0, none, 0⟩).2
      rfl rfl).trans (by decide)

/-- Claim C7: the type mapper is total — on every string it yields a value
of the fixed vocabulary, optionally `Nullable`-wrapped — and maps the
spec's verification table as stated, with `FOOBAR` hitting the Text
default. -/
theorem claim_C7_totality :
    (∀ (s : String) (n : Bool),
        diesel_base (pyUpper s.data) ∈ vocab ∧
        sql_type_to_diesel_type s n
          = (if n then "Nullable<" ++ diesel_base (pyUpper s.data) ++ ">"
             else diesel_base (pyUpper s.data)))
    ∧ sql_type_to_diesel_type "INT" false = "Integer"
    ∧ sql_type_to_diesel_type "VARCHAR(50)" false = "Text"
    ∧ sql_type_to_diesel_type "DOUBLE" false = "Float"
    ∧ sql_type_to_diesel_type "BOOLEAN" false = "Bool"
    ∧ sql_type_to_diesel_type "DATETIME" false = "Timestamp"
    ∧ sql_type_to_diesel_type "DATE" false = "Date"
    ∧ sql_type_to_diesel_type "BLOB" false = "Binary"
    ∧ sql_type_to_diesel_type "FOOBAR" false = "Text" := by
  refine ⟨fun s n => ⟨diesel_base_mem _, rfl⟩,
    by decide, by decide, by decide, by decide, by decide, by decide,
    by decide, by decide⟩

/-- Claim C10: the type mapper is invariant under the letter case of the
raw type string, and in particular the exact-match fallback is also
case-insensitive: lowercase `boolean` maps to Bool, not to the Text
default. -/
theorem claim_C10_case_invariance :
    (∀ (s : String) (n : Bool),
        sql_type_to_diesel_type s n = sql_type_to_diesel_type (pyUpperStr s) n)
    ∧ sql_type_to_diesel_type "boolean" false = "Bool" := by
  constructor
  · intro s n
    simp only [sql_type_to_diesel_type]
    rw [show (pyUpperStr s).data = pyUpper s.data from rfl, pyUpper_idem]
  · decide

/-- The spec's end-to-end scenario database: `users` and `posts`, with one
foreign key from `posts` to `users`. -/
def sample_db : List Table :=
  [⟨"users",
    [⟨0, "id", "INTEGER", 0, none, 1⟩, ⟨1, "name", "TEXT", 1, none, 0⟩,
     ⟨2, "age", "INTEGER", 0, none, 0⟩], []⟩,
   ⟨"posts",
    [⟨0, "id", "INTEGER", 0, none, 1⟩, ⟨1, "user_id", "INTEGER", 0, none, 0⟩],
    [⟨"users", "user_id", "id"⟩]⟩]

/-- Claim C3: after all table blocks the document carries exactly one
`joinable!` statement per foreign key whose referenced table differs from
its owning table (so zero statements for self-referencing keys), in table
order outer and foreign-key discovery order inner, followed by one blank
separator line iff at least one statement was emitted. -/
theorem claim_C3_joinable_statements :
    ∀ db : List Table,
      generate_schema db
        = String.intercalate "\n"
            (header_lines ++ (sorted_tables db).flatMap table_block
             ++ (if ((sorted_tables db).flatMap
                       (fun t => (t.foreignKeys.filter
                             (fun fk => fk.referencedTable != t.name)).map
                           (joinable_line t.name))).isEmpty then []
                 else ((sorted_tables db).flatMap
                       (fun t => (t.foreignKeys.filter
                             (fun fk => fk.referencedTable != t.name)).map
                           (joinable_line t.name))) ++ [""])
             ++ allow_lines ((sorted_tables db).map Table.name)) := by
  intro db
  exact generate_schema_eq db

/-- Claim C4: for any two tables in the output, one's declaration block
precedes the other's iff its name sorts lexicographically first — position
`i` precedes position `j` in the emitted sequence iff name `i` is less than
name `j` — and the document places the blocks in exactly that order and
ends with the collection statement listing every table name, one per line,
in the same order, terminated by the closing marker `);`.  The hypothesis
that table names are distinct encodes what SQLite guarantees of any real
catalog (a database cannot hold two tables of one name). -/
theorem claim_C4_lexicographic_order (db : List Table)
    (h : (db.map Table.name).Nodup) :
    (∀ i j (hi : i < ((sorted_tables db).map Table.name).length)
        (hj : j < ((sorted_tables db).map Table.name).length),
        i < j ↔ ((sorted_tables db).map Table.name).get ⟨i, hi⟩
                  < ((sorted_tables db).map Table.name).get ⟨j, hj⟩)
    ∧ generate_schema db
        = String.intercalate "\n"
            (header_lines ++ (sorted_tables db).flatMap table_block
             ++ (if ((sorted_tables db).flatMap joinables_of).isEmpty then []
                 else (sorted_tables db).flatMap joinables_of ++ [""])
             ++ (["diesel::allow_tables_to_appear_in_same_query!("]
                 ++ ((sorted_tables db).map Table.name).map
                     (fun n => "    " ++ n ++ ",")
                 ++ [");"])) := by
  constructor
  · have hle := sorted_tables_pairwise_le db
    have hsub : ((db.filter (fun t => t.name != "sqlite_sequence")).map
        Table.name).Sublist (db.map Table.name) :=
      (List.filter_sublist _).map _
    have hnd0 := h.sublist hsub
    have hnd : ((sorted_tables db).map Table.name).Nodup :=
      (((sorted_tables_perm db).map Table.name).nodup_iff).mpr hnd0
    have hlt : ((sorted_tables db).map Table.name).Pairwise (· < ·) :=
      (hle.and hnd).imp (fun hab => lt_of_le_of_ne hab.1 hab.2)
    intro i j hi hj
    constructor
    · intro hij
      exact List.pairwise_iff_get.mp hlt ⟨i, hi⟩ ⟨j, hj⟩ hij
    · intro hgt
      rcases Nat.lt_trichotomy i j with h1 | h1 | h1
      · exact h1
      · exfalso
        subst h1
        exact lt_irrefl _ hgt
      · exfalso
        exact lt_asymm hgt (List.pairwise_iff_get.mp hlt ⟨j, hj⟩ ⟨i, hi⟩ h1)
  · exact generate_schema_eq db

/-- Witness for C4: the sample database has distinct table names; its
document decomposes as the theorem states. -/
theorem claim_C4_lexicographic_order_witness :
    generate_schema sample_db
      = String.intercalate "\n"
          (header_lines ++ (sorted_tables sample_db).flatMap table_block
           ++ (if ((sorted_tables sample_db).flatMap joinables_of).isEmpty then []
               else (sorted_tables sample_db).flatMap joinables_of ++ [""])
           ++ (["diesel::allow_tables_to_appear_in_same_query!("]
               ++ ((sorted_tables sample_db).map Table.name).map
                   (fun n => "    " ++ n ++ ",")
               ++ [");"])) :=
  (claim_C4_lexicographic_order sample_db (by decide)).2

/-- Counterexample to C5 as stated: a table whose only column is flagged as
primary key but named the empty string.  The first flagged column exists
and is named `""`, yet the block-opening line declares the fallback `id`
(Python's `if not primary_key:` treats the empty string as falsy), not the
flagged column's name. -/
theorem claim_C5_counterexample :
    find_primary_key [⟨0, "", "INTEGER", 1, none, 1⟩] = some "" ∧
    (table_block ⟨"t", [⟨0, "", "INTEGER", 1, none, 1⟩], []⟩)[1]?
      = some "    t (id) \x7b" ∧
    ¬ (table_block ⟨"t", [⟨0, "", "INTEGER", 1, none, 1⟩], []⟩)[1]?
      = some ("    t (" ++ "" ++ ") \x7b") := by
  refine ⟨rfl, by decide, by decide⟩

/-- Claim C5 amended: the declared primary-key identifier is the name of
the first column (in ordinal order) whose primary-key flag is set, provided
that name is non-empty; if no column has the flag set — or the first
flagged column's name is the empty string — the block uses the hardcoded
fallback identifier `id`, and no error is raised. -/
theorem claim_C5_primary_key_fallback (t : Table) :
    (∀ s, find_primary_key t.columns = some s → s ≠ "" →
      table_block t
        = "diesel::table! \x7b" :: ("    " ++ t.name ++ " (" ++ s ++ ") \x7b")
            :: (t.columns.map column_line ++ ["    \x7d", "\x7d", ""]))
    ∧ (find_primary_key t.columns = none →
      table_block t
        = "diesel::table! \x7b" :: ("    " ++ t.name ++ " (" ++ "id" ++ ") \x7b")
            :: (t.columns.map column_line ++ ["    \x7d", "\x7d", ""]))
    ∧ (find_primary_key t.columns = some "" →
      table_block t
        = "diesel::table! \x7b" :: ("    " ++ t.name ++ " (" ++ "id" ++ ") \x7b")
            :: (t.columns.map column_line ++ ["    \x7d", "\x7d", ""])) := by
  refine ⟨?_, ?_, ?_⟩
  · intro s hs hne
    unfold table_block
    rw [show primary_key_ident t.columns = s by
      unfold primary_key_ident
      rw [hs]
      exact if_neg hne]
    rfl
  · intro hs
    unfold table_block
    rw [show primary_key_ident t.columns = "id" by
      unfold primary_key_ident
      rw [hs]]
    rfl
  · intro hs
    unfold table_block
    rw [show primary_key_ident t.columns = "id" by
      unfold primary_key_ident
      rw [hs]
      exact if_pos rfl]
    rfl

/-- Witness for the amended C5: a non-empty flagged name is used verbatim;
a table with no flagged column gets `id`. -/
theorem claim_C5_primary_key_fallback_witness :
    table_block ⟨"users", [⟨0, "uid", "INTEGER", 0, none, 1⟩], []⟩
      = ["diesel::table! \x7b", "    users (uid) \x7b",
         "        uid -> Integer,", "    \x7d", "\x7d", ""] ∧
    table_block ⟨"bare", [⟨0, "x", "TEXT", 0, none, 0⟩], []⟩
      = ["diesel::table! \x7b", "    bare (id) \x7b",
         "        x -> Nullable<Text>,", "    \x7d", "\x7d", ""] := by
  constructor
  · exact ((claim_C5_primary_key_fallback
      ⟨"users", [⟨0, "uid", "INTEGER", 0, none, 1⟩], []⟩).1
        "uid" rfl (by decide)).trans (by decide)
  · exact ((claim_C5_primary_key_fallback
      ⟨"bare", [⟨0, "x", "TEXT", 0, none, 0⟩], []⟩).2.1 rfl).trans (by decide)

/-- Claim C6: emission is deterministic — the output is a pure function of
the metadata snapshot, so two runs on identical metadata produce identical
output text.  The embedding is a total function with no other inputs (the
Python likewise consults no global state, randomness or clock, and iterates
no unordered collection: the catalog row lists fix every order). -/
theorem claim_C6_deterministic (db1 db2 : List Table) (h : db1 = db2) :
    generate_schema db1 = generate_schema db2 := by
  rw [h]

/-- Witness for C6 at the sample database. -/
theorem claim_C6_deterministic_witness :
    generate_schema sample_db = generate_schema sample_db :=
  claim_C6_deterministic sample_db sample_db rfl

/-- Claim C8: the emitter is pure string assembly and never raises (the
embedding is a total function); a table with zero columns still yields a
block of the opening line with the fallback primary-key identifier, no
column lines, the closing lines and the blank separator. -/
theorem claim_C8_zero_columns :
    ∀ (name : String) (fks : List ForeignKey),
      table_block ⟨name, [], fks⟩
        = ["diesel::table! \x7b", "    " ++ name ++ " (" ++ "id" ++ ") \x7b",
           "    \x7d", "\x7d", ""] := by
  intro name fks
  rfl

/-- Counterexample to C9 as stated: invoked with no database argument, the
process exits with status 1 and prints the usage message — but `print`
writes it to standard output, and nothing at all is written to the
diagnostic stream. -/
theorem claim_C9_counterexample :
    (main_model ["generate_schema.py"] []).exitStatus = 1 ∧
    (main_model ["generate_schema.py"] []).outText
      = "Usage: python generate_schema.py <database_path>\n" ∧
    (main_model ["generate_schema.py"] []).errText = "" := by
  refine ⟨rfl, rfl, rfl⟩

/-- Claim C9 amended: with an argument count different from exactly one
database path the process exits with status 1, writes the usage message to
standard output (not the diagnostic stream), and produces no schema output;
on success it exits with status 0 after writing the whole document (plus a
trailing newline from `print`) to standard output. -/
theorem claim_C9_exit_behaviour (argv : List String) (db : List Table) :
    (argv.length ≠ 2 →
      main_model argv db
        = ⟨1, "Usage: python generate_schema.py <database_path>\n", ""⟩)
    ∧ (argv.length = 2 →
      main_model argv db = ⟨0, generate_schema db ++ "\n", ""⟩) := by
  constructor
  · intro h
    unfold main_model
    rw [if_pos h]
  · intro h
    unfold main_model
    rw [if_neg (by simp [h])]

/-- Witness for the amended C9: one invocation with a missing argument and
one correct invocation. -/
theorem claim_C9_exit_behaviour_witness :
    main_model ["generate_schema.py"] sample_db
      = ⟨1, "Usage: python generate_schema.py <database_path>\n", ""⟩ ∧
    main_model ["generate_schema.py", "app.db"] sample_db
      = ⟨0, generate_schema sample_db ++ "\n", ""⟩ := by
  constructor
  · exact (claim_C9_exit_behaviour ["generate_schema.py"] sample_db).1 (by decide)
  · exact (claim_C9_exit_behaviour ["generate_schema.py", "app.db"] sample_db).2 rfl

end CLIERP
